import Mathlib

/-!
# Verification of `ipcalc.py` against its specification

This file gives a shallow embedding of `src/ipcalc.py` (a single-file CLI
subnet calculator) together with the parts of CPython 3.11's `ipaddress`
standard library that the program calls (`IPv4Network`/`IPv6Network`
construction with `strict=False`, network indexing, `num_addresses`,
address string rendering), and proves properties of the embedding.

Python's unbounded integers are modelled as `Nat` (all address arithmetic in
the library is on non-negative values; the one signed value, the index given
to `__getitem__`, is modelled as `Int`).  Python strings are sequences of
code points, modelled as Lean `String`/`List Char`.  A Python function that
can raise is modelled as `Except String α` carrying the exception's message;
the two `except` clauses of the calculator functions are modelled by the
placement of the `match` on those `Except` values.
-/

namespace IpCalc

/-- A value stored in the info dictionary: the Python dict built by the
calculator maps label strings to either strings or ints. -/
inductive Value where
  | str (s : String)
  | int (n : Nat)
deriving DecidableEq

/-- Result of a calculator function: `ipcalc.py`'s `calculate_ipv4_subnet_info`
and `calculate_ipv6_subnet_info` return either a dict (modelled as an
insertion-ordered list of label/value pairs) or an error-message string. -/
inductive CalcResult where
  | info (d : List (String × Value))
  | error (e : String)
deriving DecidableEq

/-! ## Python string primitives -/

/-- Apostrophe character (escaped-literal-free spelling). -/
def squote : Char := Char.ofNat 39

/-- Double-quote character. -/
def dquote : Char := Char.ofNat 34

/-- Backslash character. -/
def bslash : Char := Char.ofNat 92

/-- Python `str.split(sep)` for a one-character separator, on a char list:
splits at every occurrence of `sep`, keeping empty pieces, and yields one
piece even for the empty string (as Python does). -/
def pySplitAux (sep : Char) : List Char → List (List Char)
  | [] => [[]]
  | c :: cs =>
    if c = sep then [] :: pySplitAux sep cs
    else
      match pySplitAux sep cs with
      | [] => [[c]]
      | g :: gs => (c :: g) :: gs

/-- Python `s.split(sep)` for a one-character separator. -/
def pySplit (s : String) (sep : Char) : List String :=
  (pySplitAux sep s.data).map String.mk

/-- Python `repr()` of a string, as interpolated by `%r` in the error messages
of `ipaddress`: the string wrapped in quotes (single quotes, or double quotes
when the string contains a single quote but no double quote), with the
backslash, the wrapping quote, newline, carriage return and tab escaped.
(`repr`'s `\xhh` escaping of other non-printable characters is not needed by
any input considered here and is left unmodelled.) -/
def pyRepr (s : String) : String :=
  let q := if s.data.contains squote && !(s.data.contains dquote) then dquote else squote
  let esc := s.data.foldr
    (fun c acc =>
      if c = bslash then bslash :: bslash :: acc
      else if c = q then bslash :: c :: acc
      else if c = Char.ofNat 10 then bslash :: 'n' :: acc
      else if c = Char.ofNat 13 then bslash :: 'r' :: acc
      else if c = Char.ofNat 9 then bslash :: 't' :: acc
      else c :: acc) []
  String.mk (q :: esc ++ [q])

/-- ASCII decimal digit test: Python's `s.isascii() and s.isdigit()` per
character. -/
def isAsciiDigit (c : Char) : Bool := 48 ≤ c.toNat && c.toNat ≤ 57

/-- ASCII hex digit test: membership in `ipaddress._HEX_DIGITS`
(`0123456789ABCDEFabcdef`). -/
def isHexDigit (c : Char) : Bool :=
  isAsciiDigit c || (97 ≤ c.toNat && c.toNat ≤ 102) || (65 ≤ c.toNat && c.toNat ≤ 70)

/-- Value of an ASCII decimal digit string (`int(s, 10)` on a digit-only
string). -/
def decimalVal (s : String) : Nat :=
  s.data.foldl (fun a c => a * 10 + (c.toNat - 48)) 0

/-- Value of one hex digit. -/
def hexDigitVal (c : Char) : Nat :=
  if 48 ≤ c.toNat && c.toNat ≤ 57 then c.toNat - 48
  else if 97 ≤ c.toNat && c.toNat ≤ 102 then c.toNat - 87
  else if 65 ≤ c.toNat && c.toNat ≤ 70 then c.toNat - 55
  else 0

/-- Value of an ASCII hex digit string (`int(s, 16)` on a hex-digit-only
string). -/
def hexVal (s : String) : Nat :=
  s.data.foldl (fun a c => a * 16 + hexDigitVal c) 0

/-- Decimal rendering of a natural number (Python `str`/`%d`). -/
def natString (n : Nat) : String := Nat.repr n

/-- Lowercase hex rendering without padding (Python `'%x' % n`). -/
def hexString (n : Nat) : String := String.mk (Nat.toDigits 16 n)

/-! ## CPython `ipaddress`: IPv4 parsing

Faithful models of the functions of CPython 3.11's `ipaddress` module that
`IPv4Network(s, strict=False)` exercises.  `AddressValueError` and
`NetmaskValueError` are both subclasses of `ValueError`; every error below is
therefore caught by the calculator's `except ValueError` handler, so a single
`Except String` error channel models them. -/

/-- `ipaddress._BaseV4._parse_octet`: a decimal octet, rejecting empties,
non-ASCII-digits, more than 3 characters, leading zeros, and values above
255 — in that order. -/
def parse_octet (s : String) : Except String Nat :=
  if s.data.isEmpty then .error "Empty octet not permitted"
  else if ¬ s.data.all isAsciiDigit then
    .error ("Only decimal digits permitted in " ++ pyRepr s)
  else if s.data.length > 3 then
    .error ("At most 3 characters permitted in " ++ pyRepr s)
  else if s ≠ "0" ∧ s.data.headD ' ' = '0' then
    .error ("Leading zeros are not permitted in " ++ pyRepr s)
  else if decimalVal s > 255 then
    .error ("Octet " ++ natString (decimalVal s) ++ " (> 255) not permitted")
  else .ok (decimalVal s)

/-- `int.from_bytes(map(_parse_octet, octets), 'big')`: big-endian
accumulation of the octets, stopping at the first octet error. -/
def parseOctetsAux (acc : Nat) : List String → Except String Nat
  | [] => .ok acc
  | o :: rest =>
    match parse_octet o with
    | .error e => .error e
    | .ok v => parseOctetsAux (acc * 256 + v) rest

/-- `ipaddress._BaseV4._ip_int_from_string`: dotted-quad string to integer. -/
def ip_int_from_string_v4 (s : String) : Except String Nat :=
  if s.data.isEmpty then .error "Address cannot be empty"
  else
    let octets := pySplit s '.'
    if octets.length ≠ 4 then .error ("Expected 4 octets in " ++ pyRepr s)
    else
      match parseOctetsAux 0 octets with
      | .error e => .error (e ++ " in " ++ pyRepr s)
      | .ok v => .ok v

/-- `ipaddress.IPv4Address(s)` for a string argument: rejects `/`, then
parses the dotted quad. -/
def ipv4AddressOfString (s : String) : Except String Nat :=
  if s.data.contains '/' then .error ("Unexpected '/' in " ++ pyRepr s)
  else ip_int_from_string_v4 s

/-! ## CPython `ipaddress`: netmask handling -/

/-- `_BaseV4._ALL_ONES`: `2**32 - 1`. -/
def allOnes32 : Nat := 2 ^ 32 - 1

/-- `_BaseV6._ALL_ONES`: `2**128 - 1`. -/
def allOnes128 : Nat := 2 ^ 128 - 1

/-- `ipaddress._IPAddressBase._ip_int_from_prefix`:
`ALL_ONES ^ (ALL_ONES >> prefixlen)`. -/
def ip_int_from_prefixlen (allOnes p : Nat) : Nat := allOnes ^^^ (allOnes >>> p)

/-- `_BaseNetwork.hostmask` as an integer: `netmask ^ ALL_ONES` for the
netmask of the given prefix length. -/
def hostmaskOf (allOnes p : Nat) : Nat := ip_int_from_prefixlen allOnes p ^^^ allOnes

/-- `_BaseNetwork.broadcast_address` as an integer:
`int(network_address) | int(hostmask)`. -/
def broadcastOf (allOnes net p : Nat) : Nat := net ||| hostmaskOf allOnes p

/-- Python `int.bit_length()`. -/
def pyBitLength (n : Nat) : Nat := if n = 0 then 0 else Nat.log2 n + 1

/-- `ipaddress._count_righthand_zero_bits`.  Python computes
`(~number & (number-1)).bit_length()`; for `number > 0` the two's-complement
identity `~n & (n-1) = (n-1) - ((n-1) & n)` expresses it on `Nat`. -/
def count_righthand_zero_bits (number bits : Nat) : Nat :=
  if number = 0 then bits
  else min bits (pyBitLength ((number - 1) - ((number - 1) &&& number)))

/-- `_IPAddressBase._prefix_from_ip_int`: netmask integer to prefix length;
the error message is discarded by the only caller, so the error carries no
data. -/
def prefixlen_from_ip_int (maxLen ipInt : Nat) : Except Unit Nat :=
  let t := count_righthand_zero_bits ipInt maxLen
  let p := maxLen - t
  if ipInt >>> t ≠ (1 <<< p) - 1 then .error () else .ok p

/-- `_IPAddressBase._prefix_from_prefix_string`: an ASCII-digit string whose
value is at most `maxLen`; anything else raises
`NetmaskValueError('%r is not a valid netmask')`. -/
def prefixlen_from_string (maxLen : Nat) (s : String) : Except String Nat :=
  if ¬ (0 < s.data.length ∧ s.data.all isAsciiDigit) then
    .error (pyRepr s ++ " is not a valid netmask")
  else if ¬ (decimalVal s ≤ maxLen) then
    .error (pyRepr s ++ " is not a valid netmask")
  else .ok (decimalVal s)

/-- `_BaseV4._prefix_from_ip_string`: parse the string as a dotted quad and
try to read it as a netmask, then as a hostmask. -/
def prefixlen_from_ip_string_v4 (s : String) : Except String Nat :=
  match ip_int_from_string_v4 s with
  | .error _ => .error (pyRepr s ++ " is not a valid netmask")
  | .ok ip =>
    match prefixlen_from_ip_int 32 ip with
    | .ok p => .ok p
    | .error () =>
      match prefixlen_from_ip_int 32 (ip ^^^ allOnes32) with
      | .ok p => .ok p
      | .error () => .error (pyRepr s ++ " is not a valid netmask")

/-- The mask argument handed to `_make_netmask`: the integer
`_max_prefixlen` when the input had no `/`, otherwise the substring after
the `/`. -/
inductive MaskArg where
  | int (n : Nat)
  | str (s : String)
deriving DecidableEq

/-- `IPv4Network._make_netmask`: returns the netmask integer and prefix
length. -/
def make_netmask_v4 : MaskArg → Except String (Nat × Nat)
  | .int p =>
    if p ≤ 32 then .ok (ip_int_from_prefixlen allOnes32 p, p)
    else .error (natString p ++ " is not a valid netmask")
  | .str s =>
    match prefixlen_from_string 32 s with
    | .ok p => .ok (ip_int_from_prefixlen allOnes32 p, p)
    | .error _ =>
      match prefixlen_from_ip_string_v4 s with
      | .ok p => .ok (ip_int_from_prefixlen allOnes32 p, p)
      | .error e => .error e

/-- `_IPAddressBase._split_addr_prefix` composed with
`_split_optional_netmask`: splits on `/`, rejecting more than one, and
defaults the mask to `maxLen`. -/
def split_addr_prefixlen (maxLen : Nat) (s : String) : Except String (String × MaskArg) :=
  let parts := pySplit s '/'
  if parts.length > 2 then .error ("Only one '/' permitted in " ++ pyRepr s)
  else
    match parts with
    | [a] => .ok (a, .int maxLen)
    | [a, m] => .ok (a, .str m)
    | _ => .error ("Only one '/' permitted in " ++ pyRepr s)

/-- `ipaddress.IPv4Network(s, strict=False)`, reduced to the data the
calculator uses: the (host-bits-masked) network address integer and the
prefix length.  With `strict=False` the host-bits check rebuilds the network
address as `packed & netmask` instead of raising. -/
def IPv4NetworkOfString (s : String) : Except String (Nat × Nat) :=
  match split_addr_prefixlen 32 s with
  | .error e => .error e
  | .ok (addr, mask) =>
    match ipv4AddressOfString addr with
    | .error e => .error e
    | .ok a =>
      match make_netmask_v4 mask with
      | .error e => .error e
      | .ok (m, p) =>
        if a &&& m ≠ a then .ok (a &&& m, p) else .ok (a, p)

/-- `_BaseV4._string_from_ip_int`: dotted-decimal rendering
(`'.'.join(map(str, ip_int.to_bytes(4, 'big')))`). -/
def ipv4String (n : Nat) : String :=
  natString ((n >>> 24) &&& 255) ++ "." ++ natString ((n >>> 16) &&& 255) ++ "." ++
    natString ((n >>> 8) &&& 255) ++ "." ++ natString (n &&& 255)

/-- `_BaseNetwork.__getitem__`: index into the address range, raising
`IndexError('address out of range')` outside it.  `IndexError` is not a
`ValueError`, so in the calculator this error lands in the generic
`except Exception` handler. -/
def networkGetItem (network broadcast : Nat) (n : Int) : Except String Nat :=
  if 0 ≤ n then
    if (network : Int) + n > (broadcast : Int) then .error "address out of range"
    else .ok (network + n.toNat)
  else
    if (broadcast : Int) + (n + 1) < (network : Int) then .error "address out of range"
    else .ok ((broadcast : Int) + (n + 1)).toNat

/-! ## `ipcalc.py`: the IPv4 calculator -/

/-- The dict literal of `calculate_ipv4_subnet_info`, with the values of
`network[1]` and `network[-2]` abstracted as `first` and `last`. -/
def ipv4InfoDict (net p first last : Nat) : List (String × Value) :=
  [("version", .int 4),
   ("Input CIDR", .str (ipv4String net ++ "/" ++ natString p)),
   ("Network Address", .str (ipv4String net)),
   ("Broadcast Address", .str (ipv4String (broadcastOf allOnes32 net p))),
   ("First usable Address", .str (ipv4String first)),
   ("Last usable Address", .str (ipv4String last)),
   ("Total Addresses", .int (broadcastOf allOnes32 net p - net + 1))]

/-- `ipcalc.calculate_ipv4_subnet_info`.  The `try` body parses the network
and builds the dict; dict entries are evaluated in order, so the first
failing index access (`network[1]`, then `network[-2]`) decides the error.
A parse failure is a `ValueError` and lands in the first handler; an
out-of-range index is an `IndexError` and lands in the generic handler. -/
def calculate_ipv4_subnet_info (s : String) : CalcResult :=
  match IPv4NetworkOfString s with
  | .error e => .error ("Error: Invalid IPv4 address or prefix. " ++ e)
  | .ok (net, p) =>
    match networkGetItem net (broadcastOf allOnes32 net p) 1 with
    | .error e => .error ("An unexpected error occurred: " ++ e)
    | .ok first =>
      match networkGetItem net (broadcastOf allOnes32 net p) (-2) with
      | .error e => .error ("An unexpected error occurred: " ++ e)
      | .ok last => .info (ipv4InfoDict net p first last)

/-! ## CPython `ipaddress`: IPv6 parsing -/

/-- `ipaddress._BaseV6._parse_hextet`: at most four hex digits.  An empty
hextet passes both explicit checks and fails only inside `int('', 16)`
(a case the call sites make unreachable, modelled for completeness with
`int`'s message). -/
def parse_hextet (s : String) : Except String Nat :=
  if ¬ s.data.all isHexDigit then .error ("Only hex digits permitted in " ++ pyRepr s)
  else if s.data.length > 4 then .error ("At most 4 characters permitted in " ++ pyRepr s)
  else if s.data.isEmpty then .error ("invalid literal for int() with base 16: " ++ pyRepr s)
  else .ok (hexVal s)

/-- The hextet-accumulation loop of `_ip_int_from_string`:
`ip_int <<= 16; ip_int |= _parse_hextet(part)` over the given parts. -/
def foldHextets (acc : Nat) : List String → Except String Nat
  | [] => .ok acc
  | h :: rest =>
    match parse_hextet h with
    | .error e => .error e
    | .ok v => foldHextets ((acc <<< 16) ||| v) rest

/-- `ipaddress._BaseV6._ip_int_from_string`: colon-separated IPv6 address
text (with optional `::` compression and optional trailing dotted-quad) to a
128-bit integer.  The interior scan for `''` parts is modelled by counting
the empty interior parts (a second one is exactly when Python raises
`At most one '::'`) and taking the index of the first. -/
def ip_int_from_string_v6 (s : String) : Except String Nat :=
  if s.data.isEmpty then .error "Address cannot be empty"
  else
    let parts0 := pySplit s ':'
    if parts0.length < 3 then .error ("At least 3 parts expected in " ++ pyRepr s)
    else
      match
        (if (parts0.getLastD "").data.contains '.' then
          match ipv4AddressOfString (parts0.getLastD "") with
          | .error e => .error (e ++ " in " ++ pyRepr s)
          | .ok v4 =>
            .ok (parts0.dropLast ++ [hexString ((v4 >>> 16) &&& 65535), hexString (v4 &&& 65535)])
        else .ok parts0 : Except String (List String)) with
      | .error e => .error e
      | .ok parts =>
        if parts.length > 9 then .error ("At most 8 colons permitted in " ++ pyRepr s)
        else
          let interior := (parts.drop 1).dropLast
          if 2 ≤ (interior.filter (· = "")).length then
            .error ("At most one '::' permitted in " ++ pyRepr s)
          else if (interior.filter (· = "")).length = 1 then
            let skip := 1 + interior.findIdx (· == "")
            let hi0 := skip
            let lo0 := parts.length - skip - 1
            if parts.headD "" = "" ∧ hi0 - 1 ≠ 0 then
              .error ("Leading ':' only permitted as part of '::' in " ++ pyRepr s)
            else
              let hi := if parts.headD "" = "" then hi0 - 1 else hi0
              if parts.getLastD "" = "" ∧ lo0 - 1 ≠ 0 then
                .error ("Trailing ':' only permitted as part of '::' in " ++ pyRepr s)
              else
                let lo := if parts.getLastD "" = "" then lo0 - 1 else lo0
                if 8 ≤ hi + lo then
                  .error ("Expected at most 7 other parts with '::' in " ++ pyRepr s)
                else
                  match foldHextets 0 (parts.take hi) with
                  | .error e => .error (e ++ " in " ++ pyRepr s)
                  | .ok acc1 =>
                    match foldHextets (acc1 <<< (16 * (8 - (hi + lo)))) (parts.drop (parts.length - lo)) with
                    | .error e => .error (e ++ " in " ++ pyRepr s)
                    | .ok ip => .ok ip
          else
            if parts.length ≠ 8 then
              .error ("Exactly 8 parts expected without '::' in " ++ pyRepr s)
            else if parts.headD "" = "" then
              .error ("Leading ':' only permitted as part of '::' in " ++ pyRepr s)
            else if parts.getLastD "" = "" then
              .error ("Trailing ':' only permitted as part of '::' in " ++ pyRepr s)
            else
              match foldHextets 0 parts with
              | .error e => .error (e ++ " in " ++ pyRepr s)
              | .ok ip => .ok ip

/-- Split a char list at the first occurrence of `sep` (Python
`str.partition`, keeping only whether the separator occurred). -/
def splitFirst (sep : Char) : List Char → Option (List Char × List Char)
  | [] => none
  | c :: cs =>
    if c = sep then some ([], cs)
    else
      match splitFirst sep cs with
      | none => none
      | some (a, b) => some (c :: a, b)

/-- `ipaddress._BaseV6._split_scope_id`: split `addr%scope`, rejecting an
empty scope or a second `%`. -/
def split_scope_id (s : String) : Except String (String × Option String) :=
  match splitFirst '%' s.data with
  | none => .ok (s, none)
  | some (a, b) =>
    if b.isEmpty || b.contains '%' then
      .error ("Invalid IPv6 address: " ++ String.mk [dquote] ++ pyRepr s ++ String.mk [dquote])
    else .ok (String.mk a, some (String.mk b))

/-- `ipaddress.IPv6Address(s)` for a string argument: rejects `/`, splits a
scope id, parses the rest; the value is the pair of the 128-bit integer and
the optional scope id. -/
def ipv6AddressOfString (s : String) : Except String (Nat × Option String) :=
  if s.data.contains '/' then .error ("Unexpected '/' in " ++ pyRepr s)
  else
    match split_scope_id s with
    | .error e => .error e
    | .ok (addr, sid) =>
      match ip_int_from_string_v6 addr with
      | .error e => .error e
      | .ok ip => .ok (ip, sid)

/-- `IPv6Network._make_netmask`: IPv6 accepts only prefix-length strings
(no dotted netmask form). -/
def make_netmask_v6 : MaskArg → Except String (Nat × Nat)
  | .int p =>
    if p ≤ 128 then .ok (ip_int_from_prefixlen allOnes128 p, p)
    else .error (natString p ++ " is not a valid netmask")
  | .str s =>
    match prefixlen_from_string 128 s with
    | .ok p => .ok (ip_int_from_prefixlen allOnes128 p, p)
    | .error e => .error e

/-- `ipaddress.IPv6Network(s, strict=False)`, reduced to the data the
calculator uses: the network address (integer plus optional scope id —
masking host bits rebuilds the address from the integer and so drops the
scope) and the prefix length. -/
def IPv6NetworkOfString (s : String) : Except String ((Nat × Option String) × Nat) :=
  match split_addr_prefixlen 128 s with
  | .error e => .error e
  | .ok (addr, mask) =>
    match ipv6AddressOfString addr with
    | .error e => .error e
    | .ok (a, sid) =>
      match make_netmask_v6 mask with
      | .error e => .error e
      | .ok (m, p) =>
        if a &&& m ≠ a then .ok ((a &&& m, none), p) else .ok ((a, sid), p)

/-- The eight hextet strings of `_BaseV6._string_from_ip_int`: Python
renders `'%032x' % ip`, slices it into eight 4-character groups and
re-renders each through `'%x' % int(group, 16)`; the group values are the
16-bit slices of the integer, most significant first. -/
def hextetsOf (ip : Nat) : List String :=
  (List.range 8).map (fun i => hexString ((ip >>> (16 * (7 - i))) &&& 65535))

/-- The scan of `_BaseV6._compress_hextets`: the start and length of the
longest (leftmost on ties) run of `"0"` hextets.  Python's `-1` sentinel for
"no run yet" is modelled as `none`. -/
def compressScan (hx : List String) : Option Nat × Nat :=
  let st := hx.enum.foldl
    (fun (st : (Option Nat × Nat) × Option Nat × Nat) p =>
      let bs := st.1.1; let bl := st.1.2; let cs := st.2.1; let cl := st.2.2
      if p.2 = "0" then
        let cs' := match cs with | none => some p.1 | some j => some j
        if cl + 1 > bl then ((cs', cl + 1), cs', cl + 1) else ((bs, bl), cs', cl + 1)
      else ((bs, bl), none, 0))
    ((none, 0), none, 0)
  st.1

/-- `_BaseV6._compress_hextets`: replace the longest run of `"0"` hextets
(when longer than one) by `""`, adding an empty end piece when the run
touches an end so that joining with `:` produces the `::` form. -/
def compress_hextets (hx : List String) : List String :=
  let bsbl := compressScan hx
  if 1 < bsbl.2 then
    let bs := bsbl.1.getD 0
    let endIdx := bs + bsbl.2
    let hx1 := if endIdx = hx.length then hx ++ [""] else hx
    let hx2 := hx1.take bs ++ [""] ++ hx1.drop endIdx
    if bs = 0 then "" :: hx2 else hx2
  else hx

/-- `_BaseV6._string_from_ip_int`: compressed lowercase-hex rendering. -/
def ipv6String (ip : Nat) : String :=
  String.intercalate ":" (compress_hextets (hextetsOf ip))

/-- `str(IPv6Address)`: the base rendering followed by `%scope` when a scope
id is present. -/
def addrDisplay (ip : Nat) (sid : Option String) : String :=
  match sid with
  | some t => ipv6String ip ++ "%" ++ t
  | none => ipv6String ip

/-! ## `ipcalc.py`: the IPv6 calculator -/

/-- The dict literal of `calculate_ipv6_subnet_info`, with the values of
`network[1]` and `network[-1]` abstracted as `first` and `last`. -/
def ipv6InfoDict (net : Nat) (sid : Option String) (p first last : Nat) :
    List (String × Value) :=
  [("version", .int 6),
   ("Input CIDR", .str (addrDisplay net sid ++ "/" ++ natString p)),
   ("Network Address", .str (addrDisplay net sid)),
   ("First usable Address", .str (ipv6String first)),
   ("Last usable Address", .str (ipv6String last)),
   ("Total Addresses", .int (broadcastOf allOnes128 net p - net + 1))]

/-- `ipcalc.calculate_ipv6_subnet_info`.  `network[1]` is evaluated before
the dict is complete (and again inside it); `network[-1]` never fails since
the broadcast integer is always at least the network integer. -/
def calculate_ipv6_subnet_info (s : String) : CalcResult :=
  match IPv6NetworkOfString s with
  | .error e => .error ("Error: Invalid IPv6 address or prefix. " ++ e)
  | .ok ((net, sid), p) =>
    match networkGetItem net (broadcastOf allOnes128 net p) 1 with
    | .error e => .error ("An unexpected error occurred: " ++ e)
    | .ok first =>
      match networkGetItem net (broadcastOf allOnes128 net p) (-1) with
      | .error e => .error ("An unexpected error occurred: " ++ e)
      | .ok last => .info (ipv6InfoDict net sid p first last)

/-! ## `ipcalc.py`: the output formatter -/

/-- Thousands grouping of a reversed digit list: a comma after every three
digits (working from the least significant end). -/
def chunk3 : List Char → List Char
  | a :: b :: c :: d :: rest => a :: b :: c :: ',' :: chunk3 (d :: rest)
  | l => l

/-- Python `f"{n:,}"` for a non-negative int: decimal digits grouped in
threes from the right with commas. -/
def commaGroup (n : Nat) : String :=
  String.mk ((chunk3 (natString n).data.reverse).reverse)

/-- Rendering of a dict value in `print_subnet_info`: ints get thousands
separators (`f"{value:,}"`), strings print as-is. -/
def formatValue : Value → String
  | .str s => s
  | .int n => commaGroup n

/-- Python `str.ljust`: pad on the right with spaces to the given width
(no-op when already at least that wide). -/
def pyLjust (s : String) (w : Nat) : String :=
  s ++ String.mk (List.replicate (w - s.length) ' ')

/-- The `max_label_width` loop of `print_subnet_info`. -/
def maxLabelWidth (d : List (String × Value)) : Nat :=
  d.foldl (fun m p => if p.1.length > m then p.1.length else m) 0

/-- `ipcalc.print_subnet_info`, with one list entry per printed line:
`f"  {label}:".ljust(max_label_width + 4)` followed by the formatted
value. -/
def print_subnet_info (d : List (String × Value)) : List String :=
  d.map (fun p => pyLjust ("  " ++ p.1 ++ ":") (maxLabelWidth d + 4) ++ formatValue p.2)

/-- The output line SHAPE that the specification describes (written from the
spec's words, for comparison against `print_subnet_info`): left-justify the
label to the widest label so that the colon of every line aligns, then one
space, then the value. -/
def specFormatLine (w : Nat) (p : String × Value) : String :=
  "  " ++ pyLjust p.1 w ++ ": " ++ formatValue p.2

/-- The output line shape `print_subnet_info` actually produces: the colon
immediately follows the label, and the padding (at least one space; exactly
one for the widest label) comes after the colon, aligning the value column
at `maxLabelWidth + 4`. -/
def actualFormatLine (w : Nat) (p : String × Value) : String :=
  (("  " ++ p.1 ++ ":") ++ String.mk (List.replicate (w - p.1.length + 1) ' ')) ++
    formatValue p.2

/-! ## `ipcalc.py`: the CLI driver

The command line is modelled already lexed into the tokens argparse
recognises for this program: the `-4` flag, the `-6` flag, and a positional
CIDR string.  (argparse's treatment of `-h`, of unknown option strings and of
option-prefix abbreviation is outside the modelled surface.)  All argparse
usage failures — the mutually-exclusive group seeing both flags, a missing
positional, an extra positional — print to stderr (not modelled) and exit
with status 2; `main` itself never calls `sys.exit`, so every other run ends
with status 0. -/

/-- One recognised command-line token. -/
inductive Arg where
  | flag4
  | flag6
  | cidr (s : String)
deriving DecidableEq

/-- The positional arguments of the command line. -/
def cidrArgs (args : List Arg) : List String :=
  args.filterMap (fun a => match a with | .cidr s => some s | _ => none)

/-- `argparse` for this program: rejects `-4` together with `-6` (mutually
exclusive group) and anything other than exactly one positional; returns
`(is_ipv4, is_ipv6, network_address)`. -/
def parse_args (args : List Arg) : Except Unit (Bool × Bool × String) :=
  if args.contains .flag4 && args.contains .flag6 then .error ()
  else
    match cidrArgs args with
    | [s] => .ok (args.contains .flag4, args.contains .flag6, s)
    | _ => .error ()

/-- A finished process run: the lines printed to standard output and the
exit status. -/
structure RunResult where
  stdout : List String
  exitCode : Nat
deriving DecidableEq

/-- `ipcalc.main`: parse arguments (usage errors exit 2 with nothing on
stdout), default to IPv6 when neither flag is given, run the calculator, and
print either the error string or the formatted dict (`elif subnet_info:`
prints nothing for a falsy — `None` or empty — result); the process then
exits 0. -/
def main_run (args : List Arg) : RunResult :=
  match parse_args args with
  | .error () => ⟨[], 2⟩
  | .ok (is4, is6, ip) =>
    let is6d := if !is4 && !is6 then true else is6
    let subnet_info : Option CalcResult :=
      if is4 then some (calculate_ipv4_subnet_info ip)
      else if is6d then some (calculate_ipv6_subnet_info ip)
      else none
    match subnet_info with
    | some (.error e) => ⟨[e], 0⟩
    | some (.info d) => if d.isEmpty then ⟨[], 0⟩ else ⟨print_subnet_info d, 0⟩
    | none => ⟨[], 0⟩

/-! ## Mask arithmetic -/

/-- Naturals with disjoint binary digits add when or-ed. -/
theorem lor_eq_add_of_land_eq_zero : ∀ x y : Nat, x &&& y = 0 → x ||| y = x + y := by
  intro x
  induction x using Nat.binaryRec with
  | z => intro y _; simp
  | f b m ih =>
    intro y
    induction y using Nat.binaryRec with
    | z => intro _; simp
    | f c n _ =>
      intro h
      rw [Nat.land_bit, Nat.bit_eq_zero_iff] at h
      rw [Nat.lor_bit, Nat.bit_val, Nat.bit_val, Nat.bit_val, ih n h.1]
      cases b <;> cases c <;> simp_all <;> omega

/-- The IPv4 hostmask of a prefix length is the low-bits mask. -/
theorem hostmask32_eq : ∀ p, p ≤ 32 → hostmaskOf allOnes32 p = 2 ^ (32 - p) - 1 := by decide

/-- The IPv6 hostmask of a prefix length is the low-bits mask. -/
theorem hostmask128_eq : ∀ p, p ≤ 128 → hostmaskOf allOnes128 p = 2 ^ (128 - p) - 1 := by
  decide

/-- IPv4 netmask and hostmask have no common bits. -/
theorem netmask_land_hostmask32 :
    ∀ p, p ≤ 32 → ip_int_from_prefixlen allOnes32 p &&& hostmaskOf allOnes32 p = 0 := by
  decide

/-- IPv6 netmask and hostmask have no common bits. -/
theorem netmask_land_hostmask128 :
    ∀ p, p ≤ 128 → ip_int_from_prefixlen allOnes128 p &&& hostmaskOf allOnes128 p = 0 := by
  decide

/-- A netmask-masked address has no bits in the hostmask. -/
theorem masked_land_hostmask (allOnes p a : Nat)
    (h : ip_int_from_prefixlen allOnes p &&& hostmaskOf allOnes p = 0) :
    (a &&& ip_int_from_prefixlen allOnes p) &&& hostmaskOf allOnes p = 0 := by
  rw [Nat.land_assoc, h, Nat.and_zero]

/-- On a netmask-masked address, the broadcast integer is the network
integer plus the hostmask. -/
theorem broadcastOf_masked (allOnes p a : Nat)
    (h : ip_int_from_prefixlen allOnes p &&& hostmaskOf allOnes p = 0) :
    broadcastOf allOnes (a &&& ip_int_from_prefixlen allOnes p) p
      = (a &&& ip_int_from_prefixlen allOnes p) + hostmaskOf allOnes p :=
  lor_eq_add_of_land_eq_zero _ _ (masked_land_hostmask allOnes p a h)

/-! ## `__getitem__` case lemmas -/

theorem networkGetItem_one_ok (net bc : Nat) (h : net + 1 ≤ bc) :
    networkGetItem net bc 1 = .ok (net + 1) := by
  unfold networkGetItem
  rw [if_pos (by omega : (0 : Int) ≤ 1), if_neg (by omega)]
  rw [show Int.toNat 1 = 1 from rfl]

theorem networkGetItem_one_err (net bc : Nat) (h : bc < net + 1) :
    networkGetItem net bc 1 = .error "address out of range" := by
  unfold networkGetItem
  rw [if_pos (by omega : (0 : Int) ≤ 1), if_pos (by omega)]

theorem networkGetItem_neg2_ok (net bc : Nat) (h : net + 1 ≤ bc) :
    networkGetItem net bc (-2) = .ok (bc - 1) := by
  unfold networkGetItem
  rw [if_neg (by omega : ¬ (0 : Int) ≤ -2), if_neg (by omega)]
  rw [show ((bc : Int) + (-2 + 1)).toNat = bc - 1 from by omega]

theorem networkGetItem_neg1_ok (net bc : Nat) (h : net ≤ bc) :
    networkGetItem net bc (-1) = .ok bc := by
  unfold networkGetItem
  rw [if_neg (by omega : ¬ (0 : Int) ≤ -1), if_neg (by omega)]
  rw [show ((bc : Int) + (-1 + 1)).toNat = bc from by omega]

/-! ## Shape of successful parses -/

theorem prefixlen_from_string_ok {maxLen : Nat} {s : String} {p : Nat}
    (h : prefixlen_from_string maxLen s = .ok p) : p ≤ maxLen := by
  unfold prefixlen_from_string at h
  split at h
  · cases h
  · split at h
    · cases h
    · cases h
      next hle => omega

theorem prefixlen_from_ip_int_ok {maxLen ip p : Nat}
    (h : prefixlen_from_ip_int maxLen ip = .ok p) : p ≤ maxLen := by
  simp only [prefixlen_from_ip_int] at h
  split at h
  · cases h
  · cases h
    exact Nat.sub_le _ _

theorem prefixlen_from_ip_string_v4_ok {s : String} {p : Nat}
    (h : prefixlen_from_ip_string_v4 s = .ok p) : p ≤ 32 := by
  cases h1 : ip_int_from_string_v4 s with
  | error e => simp [prefixlen_from_ip_string_v4, h1] at h
  | ok ip =>
    cases h2 : prefixlen_from_ip_int 32 ip with
    | ok q =>
      simp [prefixlen_from_ip_string_v4, h1, h2] at h
      subst h
      exact prefixlen_from_ip_int_ok h2
    | error u =>
      cases h3 : prefixlen_from_ip_int 32 (ip ^^^ allOnes32) with
      | ok q =>
        simp [prefixlen_from_ip_string_v4, h1, h2, h3] at h
        subst h
        exact prefixlen_from_ip_int_ok h3
      | error u2 => simp [prefixlen_from_ip_string_v4, h1, h2, h3] at h

/-- A successful `IPv4Network._make_netmask` yields the netmask rebuilt from
an in-range prefix length. -/
theorem make_netmask_v4_ok {arg : MaskArg} {m p : Nat}
    (h : make_netmask_v4 arg = .ok (m, p)) :
    m = ip_int_from_prefixlen allOnes32 p ∧ p ≤ 32 := by
  cases arg with
  | int n =>
    by_cases hle : n ≤ 32
    · simp [make_netmask_v4, hle] at h
      obtain ⟨h1, h2⟩ := h
      subst h2
      exact ⟨h1.symm, hle⟩
    · simp [make_netmask_v4, hle] at h
  | str s =>
    cases h1 : prefixlen_from_string 32 s with
    | ok q =>
      simp [make_netmask_v4, h1] at h
      obtain ⟨hm, hp⟩ := h
      subst hp
      exact ⟨hm.symm, prefixlen_from_string_ok h1⟩
    | error e1 =>
      cases h2 : prefixlen_from_ip_string_v4 s with
      | ok q =>
        simp [make_netmask_v4, h1, h2] at h
        obtain ⟨hm, hp⟩ := h
        subst hp
        exact ⟨hm.symm, prefixlen_from_ip_string_v4_ok h2⟩
      | error e2 => simp [make_netmask_v4, h1, h2] at h

/-- A successful `IPv6Network._make_netmask` yields the netmask rebuilt from
an in-range prefix length. -/
theorem make_netmask_v6_ok {arg : MaskArg} {m p : Nat}
    (h : make_netmask_v6 arg = .ok (m, p)) :
    m = ip_int_from_prefixlen allOnes128 p ∧ p ≤ 128 := by
  cases arg with
  | int n =>
    by_cases hle : n ≤ 128
    · simp [make_netmask_v6, hle] at h
      obtain ⟨h1, h2⟩ := h
      subst h2
      exact ⟨h1.symm, hle⟩
    · simp [make_netmask_v6, hle] at h
  | str s =>
    cases h1 : prefixlen_from_string 128 s with
    | ok q =>
      simp [make_netmask_v6, h1] at h
      obtain ⟨hm, hp⟩ := h
      subst hp
      exact ⟨hm.symm, prefixlen_from_string_ok h1⟩
    | error e1 => simp [make_netmask_v6, h1] at h

/-- A successfully parsed IPv4 network has an in-range prefix length, and its
network integer is some address masked by the prefix netmask. -/
theorem IPv4NetworkOfString_ok {s : String} {net p : Nat}
    (h : IPv4NetworkOfString s = .ok (net, p)) :
    p ≤ 32 ∧ ∃ a, net = a &&& ip_int_from_prefixlen allOnes32 p := by
  unfold IPv4NetworkOfString at h
  cases h1 : split_addr_prefixlen 32 s with
  | error e => simp only [h1] at h; cases h
  | ok am =>
    obtain ⟨addr, mask⟩ := am
    simp only [h1] at h
    cases h2 : ipv4AddressOfString addr with
    | error e => simp only [h2] at h; cases h
    | ok a =>
      simp only [h2] at h
      cases h3 : make_netmask_v4 mask with
      | error e => simp only [h3] at h; cases h
      | ok mq =>
        obtain ⟨m, q⟩ := mq
        simp only [h3] at h
        obtain ⟨hm, hq⟩ := make_netmask_v4_ok h3
        by_cases hc : a &&& m ≠ a
        · rw [if_pos hc] at h
          simp only [Except.ok.injEq, Prod.mk.injEq] at h
          obtain ⟨hnet, hpq⟩ := h
          subst hpq
          exact ⟨hq, a, by rw [← hnet, hm]⟩
        · rw [if_neg hc] at h
          simp only [Except.ok.injEq, Prod.mk.injEq] at h
          obtain ⟨hnet, hpq⟩ := h
          subst hpq
          subst hnet
          push_neg at hc
          exact ⟨hq, a, by rw [hm] at hc; exact hc.symm⟩

/-- A successfully parsed IPv6 network has an in-range prefix length, and its
network integer is some address masked by the prefix netmask. -/
theorem IPv6NetworkOfString_ok {s : String} {net : Nat} {sid : Option String} {p : Nat}
    (h : IPv6NetworkOfString s = .ok ((net, sid), p)) :
    p ≤ 128 ∧ ∃ a, net = a &&& ip_int_from_prefixlen allOnes128 p := by
  unfold IPv6NetworkOfString at h
  cases h1 : split_addr_prefixlen 128 s with
  | error e => simp only [h1] at h; cases h
  | ok am =>
    obtain ⟨addr, mask⟩ := am
    simp only [h1] at h
    cases h2 : ipv6AddressOfString addr with
    | error e => simp only [h2] at h; cases h
    | ok asid =>
      obtain ⟨a, sid0⟩ := asid
      simp only [h2] at h
      cases h3 : make_netmask_v6 mask with
      | error e => simp only [h3] at h; cases h
      | ok mq =>
        obtain ⟨m, q⟩ := mq
        simp only [h3] at h
        obtain ⟨hm, hq⟩ := make_netmask_v6_ok h3
        by_cases hc : a &&& m ≠ a
        · rw [if_pos hc] at h
          simp only [Except.ok.injEq, Prod.mk.injEq] at h
          obtain ⟨⟨hnet, hsid⟩, hpq⟩ := h
          subst hpq
          exact ⟨hq, a, by rw [← hnet, hm]⟩
        · rw [if_neg hc] at h
          simp only [Except.ok.injEq, Prod.mk.injEq] at h
          obtain ⟨⟨hnet, hsid⟩, hpq⟩ := h
          subst hpq
          subst hnet
          push_neg at hc
          exact ⟨hq, a, by rw [hm] at hc; exact hc.symm⟩

/-- For a parsed IPv4 network, the broadcast integer is the network integer
plus the size of the host part. -/
theorem broadcast_parse4 {s : String} {net p : Nat}
    (hp : IPv4NetworkOfString s = .ok (net, p)) :
    broadcastOf allOnes32 net p = net + (2 ^ (32 - p) - 1) := by
  obtain ⟨hple, a, hnet⟩ := IPv4NetworkOfString_ok hp
  subst hnet
  rw [broadcastOf_masked _ _ _ (netmask_land_hostmask32 p hple), hostmask32_eq p hple]

/-- For a parsed IPv6 network, the broadcast integer is the network integer
plus the size of the host part. -/
theorem broadcast_parse6 {s : String} {net : Nat} {sid : Option String} {p : Nat}
    (hp : IPv6NetworkOfString s = .ok ((net, sid), p)) :
    broadcastOf allOnes128 net p = net + (2 ^ (128 - p) - 1) := by
  obtain ⟨hple, a, hnet⟩ := IPv6NetworkOfString_ok hp
  subst hnet
  rw [broadcastOf_masked _ _ _ (netmask_land_hostmask128 p hple), hostmask128_eq p hple]

/-! ## Computation lemmas for the calculators -/

theorem calc4_err_of_parse_err {s e : String} (hp : IPv4NetworkOfString s = .error e) :
    calculate_ipv4_subnet_info s = .error ("Error: Invalid IPv4 address or prefix. " ++ e) := by
  simp [calculate_ipv4_subnet_info, hp]

theorem calc4_of_parse_ok {s : String} {net p : Nat}
    (hp : IPv4NetworkOfString s = .ok (net, p))
    (hb : net + 1 ≤ broadcastOf allOnes32 net p) :
    calculate_ipv4_subnet_info s
      = .info (ipv4InfoDict net p (net + 1) (broadcastOf allOnes32 net p - 1)) := by
  simp [calculate_ipv4_subnet_info, hp, networkGetItem_one_ok _ _ hb,
    networkGetItem_neg2_ok _ _ hb]

theorem calc4_err_of_parse_full {s : String} {net p : Nat}
    (hp : IPv4NetworkOfString s = .ok (net, p))
    (hb : broadcastOf allOnes32 net p ≤ net) :
    calculate_ipv4_subnet_info s = .error "An unexpected error occurred: address out of range" := by
  simp [calculate_ipv4_subnet_info, hp,
    networkGetItem_one_err net (broadcastOf allOnes32 net p) (by omega)]

theorem calc4_info_inv {s : String} {d : List (String × Value)}
    (h : calculate_ipv4_subnet_info s = .info d) :
    ∃ net p, IPv4NetworkOfString s = .ok (net, p) ∧
      net + 1 ≤ broadcastOf allOnes32 net p ∧
      d = ipv4InfoDict net p (net + 1) (broadcastOf allOnes32 net p - 1) := by
  cases hp : IPv4NetworkOfString s with
  | error e => rw [calc4_err_of_parse_err hp] at h; cases h
  | ok r =>
    obtain ⟨net, p⟩ := r
    by_cases hb : net + 1 ≤ broadcastOf allOnes32 net p
    · rw [calc4_of_parse_ok hp hb] at h
      injection h with hd
      exact ⟨net, p, rfl, hb, hd.symm⟩
    · rw [calc4_err_of_parse_full hp (by omega)] at h
      cases h

theorem calc6_err_of_parse_err {s e : String} (hp : IPv6NetworkOfString s = .error e) :
    calculate_ipv6_subnet_info s = .error ("Error: Invalid IPv6 address or prefix. " ++ e) := by
  simp [calculate_ipv6_subnet_info, hp]

theorem calc6_of_parse_ok {s : String} {net : Nat} {sid : Option String} {p : Nat}
    (hp : IPv6NetworkOfString s = .ok ((net, sid), p))
    (hb : net + 1 ≤ broadcastOf allOnes128 net p) :
    calculate_ipv6_subnet_info s
      = .info (ipv6InfoDict net sid p (net + 1) (broadcastOf allOnes128 net p)) := by
  simp [calculate_ipv6_subnet_info, hp, networkGetItem_one_ok _ _ hb,
    networkGetItem_neg1_ok net (broadcastOf allOnes128 net p) (by omega)]

theorem calc6_err_of_parse_full {s : String} {net : Nat} {sid : Option String} {p : Nat}
    (hp : IPv6NetworkOfString s = .ok ((net, sid), p))
    (hb : broadcastOf allOnes128 net p ≤ net) :
    calculate_ipv6_subnet_info s = .error "An unexpected error occurred: address out of range" := by
  simp [calculate_ipv6_subnet_info, hp,
    networkGetItem_one_err net (broadcastOf allOnes128 net p) (by omega)]

theorem calc6_info_inv {s : String} {d : List (String × Value)}
    (h : calculate_ipv6_subnet_info s = .info d) :
    ∃ net sid p, IPv6NetworkOfString s = .ok ((net, sid), p) ∧
      net + 1 ≤ broadcastOf allOnes128 net p ∧
      d = ipv6InfoDict net sid p (net + 1) (broadcastOf allOnes128 net p) := by
  cases hp : IPv6NetworkOfString s with
  | error e => rw [calc6_err_of_parse_err hp] at h; cases h
  | ok r =>
    obtain ⟨ns, p⟩ := r
    obtain ⟨net, sid⟩ := ns
    by_cases hb : net + 1 ≤ broadcastOf allOnes128 net p
    · rw [calc6_of_parse_ok hp hb] at h
      injection h with hd
      exact ⟨net, sid, p, rfl, hb, hd.symm⟩
    · rw [calc6_err_of_parse_full hp (by omega)] at h
      cases h

/-! ## Formatter lemmas -/

theorem le_foldl_width (l : List (String × Value)) (acc : Nat) :
    acc ≤ l.foldl (fun m p => if p.1.length > m then p.1.length else m) acc := by
  induction l generalizing acc with
  | nil => exact Nat.le_refl _
  | cons x xs ih =>
    simp only [List.foldl_cons]
    refine Nat.le_trans ?_ (ih _)
    split <;> omega

theorem mem_le_foldl_width {p : String × Value} (l : List (String × Value)) (acc : Nat)
    (h : p ∈ l) :
    p.1.length ≤ l.foldl (fun m q => if q.1.length > m then q.1.length else m) acc := by
  induction l generalizing acc with
  | nil => cases h
  | cons x xs ih =>
    simp only [List.foldl_cons]
    cases h with
    | head =>
      refine Nat.le_trans ?_ (le_foldl_width xs _)
      split <;> omega
    | tail _ hmem => exact ih _ hmem

/-- Every label of a dict is at most the computed maximum label width. -/
theorem mem_le_maxLabelWidth {d : List (String × Value)} {p : String × Value} (h : p ∈ d) :
    p.1.length ≤ maxLabelWidth d :=
  mem_le_foldl_width d 0 h

/-- Resolving `ljust` on a label line: the pad width is the label-width gap
plus the single space the widest label receives. -/
theorem pyLjust_label (l : String) (w : Nat) (h : l.length ≤ w) :
    pyLjust ("  " ++ l ++ ":") (w + 4)
      = ("  " ++ l ++ ":") ++ String.mk (List.replicate (w - l.length + 1) ' ') := by
  unfold pyLjust
  have ha : ("  " ++ l ++ ":").length = "  ".length + l.length + ":".length := by
    rw [String.length_append, String.length_append]
  rw [show "  ".length = 2 from rfl, show ":".length = 1 from rfl] at ha
  rw [show (w + 4) - ("  " ++ l ++ ":").length = w - l.length + 1 from by rw [ha]; omega]

/-- `print_subnet_info` produces exactly the `actualFormatLine` shape on
every entry. -/
theorem print_subnet_info_eq (d : List (String × Value)) :
    print_subnet_info d = d.map (actualFormatLine (maxLabelWidth d)) := by
  unfold print_subnet_info
  apply List.map_congr_left
  intro p hp
  unfold actualFormatLine
  rw [pyLjust_label p.1 (maxLabelWidth d) (mem_le_maxLabelWidth hp)]

/-! ## Driver-computation lemmas -/

theorem parse_args_flag4 (s : String) :
    parse_args [Arg.flag4, Arg.cidr s] = .ok (true, false, s) := rfl

theorem parse_args_flag6 (s : String) :
    parse_args [Arg.flag6, Arg.cidr s] = .ok (false, true, s) := rfl

theorem parse_args_default (s : String) :
    parse_args [Arg.cidr s] = .ok (false, false, s) := rfl

theorem main_run_both_flags (args : List Arg) (h4 : args.contains Arg.flag4 = true)
    (h6 : args.contains Arg.flag6 = true) : main_run args = ⟨[], 2⟩ := by
  simp at h4 h6
  simp [main_run, parse_args, h4, h6]

theorem main_run_no_positional (args : List Arg) (h : cidrArgs args = []) :
    main_run args = ⟨[], 2⟩ := by
  by_cases hb : Arg.flag4 ∈ args ∧ Arg.flag6 ∈ args
  · simp [main_run, parse_args, hb]
  · simp [main_run, parse_args, hb, h]

theorem main_run_flag4_error {s e : String} (h : calculate_ipv4_subnet_info s = .error e) :
    main_run [Arg.flag4, Arg.cidr s] = ⟨[e], 0⟩ := by
  simp [main_run, parse_args_flag4, h]

theorem main_run_flag4_info {s : String} {d : List (String × Value)}
    (h : calculate_ipv4_subnet_info s = .info d) (hne : d.isEmpty = false) :
    main_run [Arg.flag4, Arg.cidr s] = ⟨print_subnet_info d, 0⟩ := by
  simp [main_run, parse_args_flag4, h, hne]

theorem main_run_flag6_error {s e : String} (h : calculate_ipv6_subnet_info s = .error e) :
    main_run [Arg.flag6, Arg.cidr s] = ⟨[e], 0⟩ := by
  simp [main_run, parse_args_flag6, h]

theorem main_run_flag6_info {s : String} {d : List (String × Value)}
    (h : calculate_ipv6_subnet_info s = .info d) (hne : d.isEmpty = false) :
    main_run [Arg.flag6, Arg.cidr s] = ⟨print_subnet_info d, 0⟩ := by
  simp [main_run, parse_args_flag6, h, hne]

theorem main_run_default_error {s e : String} (h : calculate_ipv6_subnet_info s = .error e) :
    main_run [Arg.cidr s] = ⟨[e], 0⟩ := by
  simp [main_run, parse_args_default, h]

theorem main_run_default_info {s : String} {d : List (String × Value)}
    (h : calculate_ipv6_subnet_info s = .info d) (hne : d.isEmpty = false) :
    main_run [Arg.cidr s] = ⟨print_subnet_info d, 0⟩ := by
  simp [main_run, parse_args_default, h, hne]

/-! ## Claims -/

/-- C2 (counterexample): the claim asserts that `10.0.0.1/32` under `-4`
yields a SubnetInfo with Total Addresses 1 and that the defensive catch-all
is never reached for syntactically valid input.  In fact, for a /32 the
range holds one address, `network[1]` raises
`IndexError('address out of range')`, and the calculator returns the
catch-all's message instead of a SubnetInfo. -/
theorem claim_small_prefix_edge_counterexample :
    calculate_ipv4_subnet_info "10.0.0.1/32"
      = CalcResult.error "An unexpected error occurred: address out of range" := by
  decide

/-- C2 (amended): for every parsed CIDR with prefix length below the maximum
the calculator returns the SubnetInfo computed by the uniform index
arithmetic (`network[1]`, and `network[-2]` for IPv4 / `network[-1]` for
IPv6); for prefix length exactly 32 (IPv4) or 128 (IPv6) the `network[1]`
index is out of range and the calculator returns the defensive catch-all
result `An unexpected error occurred: address out of range`. -/
theorem claim_small_prefix_edge_amended :
    (∀ s net p, IPv4NetworkOfString s = .ok (net, p) → p < 32 →
        calculate_ipv4_subnet_info s
          = .info (ipv4InfoDict net p (net + 1) (broadcastOf allOnes32 net p - 1))) ∧
    (∀ s net, IPv4NetworkOfString s = .ok (net, 32) →
        calculate_ipv4_subnet_info s
          = .error "An unexpected error occurred: address out of range") ∧
    (∀ s net sid p, IPv6NetworkOfString s = .ok ((net, sid), p) → p < 128 →
        calculate_ipv6_subnet_info s
          = .info (ipv6InfoDict net sid p (net + 1) (broadcastOf allOnes128 net p))) ∧
    (∀ s net sid, IPv6NetworkOfString s = .ok ((net, sid), 128) →
        calculate_ipv6_subnet_info s
          = .error "An unexpected error occurred: address out of range") := by
  refine ⟨?_, ?_, ?_, ?_⟩
  · intro s net p hp hlt
    have hb4 := broadcast_parse4 hp
    have h2 : 2 ^ 1 ≤ 2 ^ (32 - p) := Nat.pow_le_pow_right (by omega) (by omega)
    exact calc4_of_parse_ok hp (by omega)
  · intro s net hp
    have hb4 := broadcast_parse4 hp
    norm_num at hb4
    exact calc4_err_of_parse_full hp (by omega)
  · intro s net sid p hp hlt
    have hb6 := broadcast_parse6 hp
    have h2 : 2 ^ 1 ≤ 2 ^ (128 - p) := Nat.pow_le_pow_right (by omega) (by omega)
    exact calc6_of_parse_ok hp (by omega)
  · intro s net sid hp
    have hb6 := broadcast_parse6 hp
    norm_num at hb6
    exact calc6_err_of_parse_full hp (by omega)

theorem claim_small_prefix_edge_amended_witness :
    calculate_ipv4_subnet_info "10.0.0.0/31"
      = .info (ipv4InfoDict 167772160 31 (167772160 + 1)
          (broadcastOf allOnes32 167772160 31 - 1)) ∧
    calculate_ipv6_subnet_info "::1/128"
      = .error "An unexpected error occurred: address out of range" :=
  ⟨claim_small_prefix_edge_amended.1 "10.0.0.0/31" 167772160 31 rfl (by omega),
   claim_small_prefix_edge_amended.2.2.2 "::1/128" 1 none rfl⟩

/-- C4 (counterexample): the claim asserts the printed field set is exactly
Input CIDR, Network Address, Broadcast Address, First usable Address, Last
usable Address, Total Addresses with no other line, the computed version
value not included.  `print_subnet_info` iterates over every dict entry,
and the dict's first entry is `version`, so a seventh line
`  version:              4` is printed first. -/
theorem claim_printed_fields_counterexample :
    (main_run [Arg.flag4, Arg.cidr "192.168.1.0/24"]).stdout
      = ["  version:              4",
         "  Input CIDR:           192.168.1.0/24",
         "  Network Address:      192.168.1.0",
         "  Broadcast Address:    192.168.1.255",
         "  First usable Address: 192.168.1.1",
         "  Last usable Address:  192.168.1.254",
         "  Total Addresses:      256"] ∧
    (main_run [Arg.flag4, Arg.cidr "192.168.1.0/24"]).stdout
      ≠ ["  Input CIDR:           192.168.1.0/24",
         "  Network Address:      192.168.1.0",
         "  Broadcast Address:    192.168.1.255",
         "  First usable Address: 192.168.1.1",
         "  Last usable Address:  192.168.1.254",
         "  Total Addresses:      256"] := by
  constructor <;> decide

/-- C4 (amended): on success the printed field set is exactly, in order:
`version`, Input CIDR, Network Address, (for IPv4) Broadcast Address, First
usable Address, Last usable Address, Total Addresses — one line per dict
entry and nothing else; the computed version value IS included (it is a dict
entry like the rest). -/
theorem claim_printed_fields_amended :
    (∀ s d, calculate_ipv4_subnet_info s = .info d →
        d.map Prod.fst = ["version", "Input CIDR", "Network Address", "Broadcast Address",
            "First usable Address", "Last usable Address", "Total Addresses"] ∧
        (print_subnet_info d).length = 7) ∧
    (∀ s d, calculate_ipv6_subnet_info s = .info d →
        d.map Prod.fst = ["version", "Input CIDR", "Network Address",
            "First usable Address", "Last usable Address", "Total Addresses"] ∧
        (print_subnet_info d).length = 6) := by
  constructor
  · intro s d h
    obtain ⟨net, p, hp, hb, hd⟩ := calc4_info_inv h
    subst hd
    exact ⟨rfl, rfl⟩
  · intro s d h
    obtain ⟨net, sid, p, hp, hb, hd⟩ := calc6_info_inv h
    subst hd
    exact ⟨rfl, rfl⟩

theorem claim_printed_fields_amended_witness :
    (ipv4InfoDict 3232235776 24 3232235777 3232236030).map Prod.fst
        = ["version", "Input CIDR", "Network Address", "Broadcast Address",
           "First usable Address", "Last usable Address", "Total Addresses"] ∧
    (print_subnet_info (ipv4InfoDict 3232235776 24 3232235777 3232236030)).length = 7 :=
  claim_printed_fields_amended.1 "192.168.1.0/24" _ (by decide)

/-- C5 (counterexample): the claim asserts each line pads the label so the
COLON aligns at the position of the widest label, with exactly one space
after the colon.  The code left-justifies the string `"  label:"` — colon
included — so the colon abuts the label, the padding follows the colon, and
only the widest label gets exactly one space: on the two-entry dict below
the second line is `  c:  w`, not the `  c : w` the spec's shape yields. -/
theorem claim_format_alignment_counterexample :
    print_subnet_info [("ab", Value.str "v"), ("c", Value.str "w")]
        = ["  ab: v", "  c:  w"] ∧
    print_subnet_info [("ab", Value.str "v"), ("c", Value.str "w")]
        ≠ [("ab", Value.str "v"), ("c", Value.str "w")].map
            (specFormatLine (maxLabelWidth [("ab", Value.str "v"), ("c", Value.str "w")])) := by
  constructor <;> decide

/-- C5 (amended): every output line is two indentation spaces, the label,
then the colon immediately, then `maxLabelWidth − label.length + 1` spaces
(so at least one, exactly one for the widest label, and the VALUES align at
the column fixed by the widest label), then the value; integer values are
rendered with thousands-separator grouping and string values verbatim. -/
theorem claim_format_alignment_amended :
    (∀ d, print_subnet_info d = d.map (actualFormatLine (maxLabelWidth d))) ∧
    formatValue (Value.int 4294967296) = "4,294,967,296" ∧
    (∀ s, formatValue (Value.str s) = s) :=
  ⟨print_subnet_info_eq, by decide, fun _ => rfl⟩

/-- C10: both calculator functions are total: on every input string they
return either an info dict or an error string (the two constructors of
`CalcResult`); no exception escapes (the model's error channel carries every
raised exception into one of the two handlers). -/
theorem claim_calculators_total :
    ∀ s : String,
      ((∃ d, calculate_ipv4_subnet_info s = .info d) ∨
        (∃ e, calculate_ipv4_subnet_info s = .error e)) ∧
      ((∃ d, calculate_ipv6_subnet_info s = .info d) ∨
        (∃ e, calculate_ipv6_subnet_info s = .error e)) := by
  intro s
  constructor
  · cases h : calculate_ipv4_subnet_info s with
    | info d => exact Or.inl ⟨d, rfl⟩
    | error e => exact Or.inr ⟨e, rfl⟩
  · cases h : calculate_ipv6_subnet_info s with
    | info d => exact Or.inl ⟨d, rfl⟩
    | error e => exact Or.inr ⟨e, rfl⟩

/-- C1: whenever a calculator returns a SubnetInfo for a network parsed with
prefix length `p`, its Total Addresses value is exactly `2^(32−p)` (IPv4)
resp. `2^(128−p)` (IPv6), held as an exact unbounded natural; in particular
`::/0` yields exactly `2^128`. -/
theorem claim_total_addresses_pow :
    (∀ s d net p, calculate_ipv4_subnet_info s = .info d →
        IPv4NetworkOfString s = .ok (net, p) →
        List.lookup "Total Addresses" d = some (.int (2 ^ (32 - p)))) ∧
    (∀ s d net sid p, calculate_ipv6_subnet_info s = .info d →
        IPv6NetworkOfString s = .ok ((net, sid), p) →
        List.lookup "Total Addresses" d = some (.int (2 ^ (128 - p)))) ∧
    (∃ d, calculate_ipv6_subnet_info "::/0" = .info d ∧
        List.lookup "Total Addresses" d = some (.int (2 ^ 128))) := by
  refine ⟨?_, ?_, ?_⟩
  · intro s d net p hinfo hp
    obtain ⟨net', p', hp', hb, hd⟩ := calc4_info_inv hinfo
    have hee := hp'.symm.trans hp
    simp only [Except.ok.injEq, Prod.mk.injEq] at hee
    obtain ⟨h1, h2⟩ := hee
    subst h1
    subst h2
    subst hd
    have hb4 := broadcast_parse4 hp
    have hpos : 0 < 2 ^ (32 - p') := pow_pos (by norm_num) _
    have htot : broadcastOf allOnes32 net' p' - net' + 1 = 2 ^ (32 - p') := by omega
    simp [ipv4InfoDict, List.lookup, htot]
  · intro s d net sid p hinfo hp
    obtain ⟨net', sid', p', hp', hb, hd⟩ := calc6_info_inv hinfo
    have hee := hp'.symm.trans hp
    simp only [Except.ok.injEq, Prod.mk.injEq] at hee
    obtain ⟨⟨h1, h3⟩, h2⟩ := hee
    subst h1
    subst h2
    subst h3
    subst hd
    have hb6 := broadcast_parse6 hp
    have hpos : 0 < 2 ^ (128 - p') := pow_pos (by norm_num) _
    have htot : broadcastOf allOnes128 net' p' - net' + 1 = 2 ^ (128 - p') := by omega
    simp [ipv6InfoDict, List.lookup, htot]
  · exact ⟨ipv6InfoDict 0 none 0 (0 + 1) (broadcastOf allOnes128 0 0), by decide, by decide⟩

theorem claim_total_addresses_pow_witness :
    List.lookup "Total Addresses" (ipv4InfoDict 3232235776 24 3232235777 3232236030)
      = some (.int (2 ^ (32 - 24))) :=
  claim_total_addresses_pow.1 "192.168.1.0/24" _ 3232235776 24 (by decide) rfl

/-- C3: every SubnetInfo the calculators produce satisfies the ordering
invariant on its derived addresses.  The derived integers of a produced
SubnetInfo are pinned by the parse: the dict equals the literal built from
the parsed network integer `net` — network = `net`, first usable = `net+1`,
last usable = broadcast − 1 (IPv4) resp. broadcast (IPv6), broadcast =
`broadcastOf net p` — and on those integers the network is at most each of
first usable, last usable and (IPv4) broadcast, and each derived address is
at most the broadcast (IPv4) resp. the last usable address (IPv6).  This
includes the IPv4 /31, whose last usable address is index `-2` of a
two-address range. -/
theorem claim_ordering_invariant :
    (∀ s d net p, calculate_ipv4_subnet_info s = .info d →
        IPv4NetworkOfString s = .ok (net, p) →
        d = ipv4InfoDict net p (net + 1) (broadcastOf allOnes32 net p - 1) ∧
        net ≤ net + 1 ∧
        net ≤ broadcastOf allOnes32 net p - 1 ∧
        net ≤ broadcastOf allOnes32 net p ∧
        net + 1 ≤ broadcastOf allOnes32 net p ∧
        broadcastOf allOnes32 net p - 1 ≤ broadcastOf allOnes32 net p) ∧
    (∀ s d net sid p, calculate_ipv6_subnet_info s = .info d →
        IPv6NetworkOfString s = .ok ((net, sid), p) →
        d = ipv6InfoDict net sid p (net + 1) (broadcastOf allOnes128 net p) ∧
        net ≤ net + 1 ∧
        net ≤ broadcastOf allOnes128 net p ∧
        net + 1 ≤ broadcastOf allOnes128 net p) := by
  constructor
  · intro s d net p hinfo hp
    obtain ⟨net', p', hp', hb, hd⟩ := calc4_info_inv hinfo
    have hee := hp'.symm.trans hp
    simp only [Except.ok.injEq, Prod.mk.injEq] at hee
    obtain ⟨h1, h2⟩ := hee
    subst h1
    subst h2
    exact ⟨hd, by omega, by omega, by omega, by omega, by omega⟩
  · intro s d net sid p hinfo hp
    obtain ⟨net', sid', p', hp', hb, hd⟩ := calc6_info_inv hinfo
    have hee := hp'.symm.trans hp
    simp only [Except.ok.injEq, Prod.mk.injEq] at hee
    obtain ⟨⟨h1, h3⟩, h2⟩ := hee
    subst h1
    subst h2
    subst h3
    exact ⟨hd, by omega, by omega, by omega⟩

theorem claim_ordering_invariant_witness :
    ipv4InfoDict 167772160 31 167772161 167772160
        = ipv4InfoDict 167772160 31 (167772160 + 1)
            (broadcastOf allOnes32 167772160 31 - 1) ∧
    167772160 ≤ 167772160 + 1 ∧
    167772160 ≤ broadcastOf allOnes32 167772160 31 - 1 ∧
    167772160 ≤ broadcastOf allOnes32 167772160 31 ∧
    167772160 + 1 ≤ broadcastOf allOnes32 167772160 31 ∧
    broadcastOf allOnes32 167772160 31 - 1 ≤ broadcastOf allOnes32 167772160 31 :=
  claim_ordering_invariant.1 "10.0.0.0/31"
    (ipv4InfoDict 167772160 31 167772161 167772160) 167772160 31 (by decide) rfl

/-- C6: for every parsed IPv4 CIDR (below /32, where the indexing succeeds)
the calculator derives: network = input address AND netmask; broadcast =
network OR inverted netmask; first usable = network + 1; last usable =
broadcast − 1; and `192.168.1.0/24` yields exactly the spec's concrete
values. -/
theorem claim_ipv4_derivations :
    (∀ s addr mask a m p,
        split_addr_prefixlen 32 s = .ok (addr, mask) →
        ipv4AddressOfString addr = .ok a →
        make_netmask_v4 mask = .ok (m, p) →
        p < 32 →
        calculate_ipv4_subnet_info s
          = .info (ipv4InfoDict (a &&& m) p
              ((a &&& m) + 1) (((a &&& m) ||| (m ^^^ allOnes32)) - 1))) ∧
    calculate_ipv4_subnet_info "192.168.1.0/24"
      = .info [("version", Value.int 4),
               ("Input CIDR", Value.str "192.168.1.0/24"),
               ("Network Address", Value.str "192.168.1.0"),
               ("Broadcast Address", Value.str "192.168.1.255"),
               ("First usable Address", Value.str "192.168.1.1"),
               ("Last usable Address", Value.str "192.168.1.254"),
               ("Total Addresses", Value.int 256)] := by
  constructor
  · intro s addr mask a m p h1 h2 h3 hlt
    obtain ⟨hm, hple⟩ := make_netmask_v4_ok h3
    have hp : IPv4NetworkOfString s = .ok (a &&& m, p) := by
      simp only [IPv4NetworkOfString, h1, h2, h3]
      by_cases hc : a &&& m ≠ a
      · rw [if_pos hc]
      · rw [if_neg hc]
        push_neg at hc
        rw [hc]
    have hb4 := broadcast_parse4 hp
    have h2p : 2 ^ 1 ≤ 2 ^ (32 - p) := Nat.pow_le_pow_right (by omega) (by omega)
    rw [calc4_of_parse_ok hp (by omega)]
    subst hm
    rfl
  · decide

theorem claim_ipv4_derivations_witness :
    calculate_ipv4_subnet_info "192.168.1.0/24"
      = .info (ipv4InfoDict (3232235776 &&& 4294967040) 24
          ((3232235776 &&& 4294967040) + 1)
          (((3232235776 &&& 4294967040) ||| (4294967040 ^^^ allOnes32)) - 1)) :=
  claim_ipv4_derivations.1 "192.168.1.0/24" "192.168.1.0" (MaskArg.str "24")
    3232235776 4294967040 24 rfl rfl rfl (by omega)

/-- C7: parsing is non-strict — the network address a successful parse
returns never has host bits set (they are masked off silently), the
calculators' output depends only on the parse result, and the inputs
`192.168.1.5/24` and `192.168.1.0/24` parse identically and yield identical
SubnetInfo. -/
theorem claim_nonstrict_parsing :
    (∀ s net p, IPv4NetworkOfString s = .ok (net, p) →
        net &&& hostmaskOf allOnes32 p = 0) ∧
    (∀ s net sid p, IPv6NetworkOfString s = .ok ((net, sid), p) →
        net &&& hostmaskOf allOnes128 p = 0) ∧
    (∀ s1 s2 r, IPv4NetworkOfString s1 = .ok r → IPv4NetworkOfString s2 = .ok r →
        calculate_ipv4_subnet_info s1 = calculate_ipv4_subnet_info s2) ∧
    (∀ s1 s2 r, IPv6NetworkOfString s1 = .ok r → IPv6NetworkOfString s2 = .ok r →
        calculate_ipv6_subnet_info s1 = calculate_ipv6_subnet_info s2) ∧
    IPv4NetworkOfString "192.168.1.5/24" = IPv4NetworkOfString "192.168.1.0/24" ∧
    calculate_ipv4_subnet_info "192.168.1.5/24" = calculate_ipv4_subnet_info "192.168.1.0/24" := by
  refine ⟨?_, ?_, ?_, ?_, rfl, by decide⟩
  · intro s net p hp
    obtain ⟨hple, a, hnet⟩ := IPv4NetworkOfString_ok hp
    subst hnet
    exact masked_land_hostmask _ _ _ (netmask_land_hostmask32 p hple)
  · intro s net sid p hp
    obtain ⟨hple, a, hnet⟩ := IPv6NetworkOfString_ok hp
    subst hnet
    exact masked_land_hostmask _ _ _ (netmask_land_hostmask128 p hple)
  · intro s1 s2 r h1 h2
    unfold calculate_ipv4_subnet_info
    rw [h1, h2]
  · intro s1 s2 r h1 h2
    unfold calculate_ipv6_subnet_info
    rw [h1, h2]

theorem claim_nonstrict_parsing_witness :
    (3232235781 &&& 4294967040 : Nat) &&& hostmaskOf allOnes32 24 = 0 :=
  claim_nonstrict_parsing.1 "192.168.1.5/24" (3232235781 &&& 4294967040) 24 rfl

/-- C8: every parse failure makes the calculator return the invalid-input
error, whose message embeds the underlying parse failure reason; no
SubnetInfo is produced, and the driver prints only the error line (no subnet
fields).  Concretely: `999.1.1.1/24` under `-4` and `gg::/64` under `-6`
produce messages naming the malformed part. -/
theorem claim_invalid_input_error :
    (∀ s e, IPv4NetworkOfString s = .error e →
        calculate_ipv4_subnet_info s
            = .error ("Error: Invalid IPv4 address or prefix. " ++ e) ∧
        (∀ d, calculate_ipv4_subnet_info s ≠ .info d) ∧
        main_run [Arg.flag4, Arg.cidr s]
            = ⟨["Error: Invalid IPv4 address or prefix. " ++ e], 0⟩) ∧
    (∀ s e, IPv6NetworkOfString s = .error e →
        calculate_ipv6_subnet_info s
            = .error ("Error: Invalid IPv6 address or prefix. " ++ e) ∧
        (∀ d, calculate_ipv6_subnet_info s ≠ .info d) ∧
        main_run [Arg.flag6, Arg.cidr s]
            = ⟨["Error: Invalid IPv6 address or prefix. " ++ e], 0⟩) ∧
    calculate_ipv4_subnet_info "999.1.1.1/24"
      = .error "Error: Invalid IPv4 address or prefix. Octet 999 (> 255) not permitted in '999.1.1.1'" ∧
    calculate_ipv6_subnet_info "gg::/64"
      = .error "Error: Invalid IPv6 address or prefix. Only hex digits permitted in 'gg' in 'gg::'" := by
  refine ⟨?_, ?_, by decide, by decide⟩
  · intro s e hp
    have hc := calc4_err_of_parse_err hp
    refine ⟨hc, ?_, main_run_flag4_error hc⟩
    intro d hd
    rw [hc] at hd
    cases hd
  · intro s e hp
    have hc := calc6_err_of_parse_err hp
    refine ⟨hc, ?_, main_run_flag6_error hc⟩
    intro d hd
    rw [hc] at hd
    cases hd

theorem claim_invalid_input_error_witness :
    calculate_ipv4_subnet_info "999.1.1.1/24"
        = .error ("Error: Invalid IPv4 address or prefix. "
            ++ "Octet 999 (> 255) not permitted in '999.1.1.1'") :=
  (claim_invalid_input_error.1 "999.1.1.1/24"
    "Octet 999 (> 255) not permitted in '999.1.1.1'" rfl).1

/-- C9: the process exit status is 0 on successful computation and print;
argparse usage errors (both `-4` and `-6`, or a missing positional CIDR)
exit with status 2 (non-zero) printing nothing to stdout; on calculator
failure the driver prints the error message to stdout, prints no subnet
fields, and exits 0 (the reference behavior). -/
theorem claim_exit_status :
    (∀ args, args.contains Arg.flag4 = true → args.contains Arg.flag6 = true →
        main_run args = ⟨[], 2⟩ ∧ (main_run args).exitCode ≠ 0) ∧
    (∀ args, cidrArgs args = [] →
        main_run args = ⟨[], 2⟩ ∧ (main_run args).exitCode ≠ 0) ∧
    (∀ s d, calculate_ipv4_subnet_info s = .info d →
        main_run [Arg.flag4, Arg.cidr s] = ⟨print_subnet_info d, 0⟩) ∧
    (∀ s d, calculate_ipv6_subnet_info s = .info d →
        main_run [Arg.cidr s] = ⟨print_subnet_info d, 0⟩) ∧
    (∀ s e, calculate_ipv4_subnet_info s = .error e →
        main_run [Arg.flag4, Arg.cidr s] = ⟨[e], 0⟩) ∧
    (∀ s e, calculate_ipv6_subnet_info s = .error e →
        main_run [Arg.cidr s] = ⟨[e], 0⟩) := by
  refine ⟨?_, ?_, ?_, ?_, ?_, ?_⟩
  · intro args h4 h6
    refine ⟨main_run_both_flags args h4 h6, ?_⟩
    rw [main_run_both_flags args h4 h6]
    decide
  · intro args h
    refine ⟨main_run_no_positional args h, ?_⟩
    rw [main_run_no_positional args h]
    decide
  · intro s d h
    obtain ⟨net, p, hp, hb, hd⟩ := calc4_info_inv h
    refine main_run_flag4_info h ?_
    subst hd
    rfl
  · intro s d h
    obtain ⟨net, sid, p, hp, hb, hd⟩ := calc6_info_inv h
    refine main_run_default_info h ?_
    subst hd
    rfl
  · intro s e h
    exact main_run_flag4_error h
  · intro s e h
    exact main_run_default_error h

theorem claim_exit_status_witness :
    main_run [Arg.flag4, Arg.flag6, Arg.cidr "::/0"] = ⟨[], 2⟩ ∧
    main_run [Arg.flag4] = ⟨[], 2⟩ ∧
    main_run [Arg.cidr "2001:db8::/32"]
        = ⟨print_subnet_info (ipv6InfoDict 42540766411282592856903984951653826560 none 32
            (42540766411282592856903984951653826560 + 1)
            (broadcastOf allOnes128 42540766411282592856903984951653826560 32)), 0⟩ ∧
    main_run [Arg.flag4, Arg.cidr "10.0.0.1/32"]
        = ⟨["An unexpected error occurred: address out of range"], 0⟩ :=
  ⟨(claim_exit_status.1 [Arg.flag4, Arg.flag6, Arg.cidr "::/0"] rfl rfl).1,
   (claim_exit_status.2.1 [Arg.flag4] rfl).1,
   claim_exit_status.2.2.2.1 "2001:db8::/32" _ (by decide),
   claim_exit_status.2.2.2.2.1 "10.0.0.1/32" _ (by decide)⟩

end IpCalc
